import Mathlib

/-
Shallow embedding of ayte-io/ts-optional, src/src/index.ts.

Modelling choices, each traceable to the source:
- JSVal models the JavaScript values the library manipulates. The two
  absent markers null and undefined are distinct constructors, because
  the code distinguishes them (isPresent tests both; orElse substitutes
  null). An Optional instance is itself a JavaScript value (it can be
  returned raw by a transformer), hence the optional constructor
  carrying the private identity field of the class.
- Thrown errors are modelled with Except String, the string being the
  exact message the source passes to new Error(...). The spec groups
  these throw sites into two classes; invalidArgumentMsgs and
  invalidStateMsgs list the messages of each class.
- Callback arguments (transformers, predicates, suppliers, consumers)
  are Option-wrapped functions: none models passing null/undefined
  where a function is expected, which is what requireArgument rejects.
- Operations that invoke a callback also return the list of arguments
  the callback was invoked on (or a count), so invocation counts are
  observable in the embedding.
-/

inductive JSVal where
  | vnull
  | vundefined
  | num (n : Int)
  | bool (b : Bool)
  | str (s : String)
  | arr (elements : List JSVal)
  | optional (identity : JSVal)

namespace Optional

/-- `isPresent(value)` (line 157): `value !== null && typeof value !== 'undefined'`. -/
def isPresent : JSVal → Bool
  | .vnull => false
  | .vundefined => false
  | _ => true

/-- `isAbsent(value)` (line 164): `!isPresent(value)`. -/
def isAbsent (value : JSVal) : Bool := !isPresent value

/-- `require(value, onMissing?)` (lines 170-175): throws `onMissing()` (or the
default message) when the value is absent, otherwise returns the value itself. -/
def require (value : JSVal) (onMissing : Option String) : Except String JSVal :=
  if !isPresent value then
    .error (match onMissing with
            | some m => m
            | none => "Absent value provided")
  else
    .ok value

/-- Message built by `requireArgument` (line 179) for an absent argument. -/
def absentArgMsg (name : String) : String :=
  "Absent value was passed as " ++ name ++ " argument"

/-- `requireArgument(argument, name)` (lines 177-181). -/
def requireArgument (argument : JSVal) (name : String) : Except String Unit :=
  if !isPresent argument then .error (absentArgMsg name) else .ok ()

/-- `empty()` (lines 362-364): `new Optional<T>(null)`. -/
def empty : JSVal := .optional .vnull

/-- `ofNullable(identity)` (lines 372-374): `new Optional(identity)`. -/
def ofNullable (identity : JSVal) : JSVal := .optional identity

/-- `of(identity)` (lines 366-370): `require(identity, ...); return new Optional(identity)`. -/
def of (identity : JSVal) : Except String JSVal :=
  match require identity (some "Absent identity provided") with
  | .error e => .error e
  | .ok _ => .ok (.optional identity)

/-- `first(source)` (lines 183-187). A materialized non-array source is out of
the claims under study; in JavaScript its `length` is undefined and the
comparison is false, so the embedding returns `empty()` for it as well. -/
def first (source : JSVal) : Except String JSVal :=
  match requireArgument source "source" with
  | .error e => .error e
  | .ok _ =>
    match source with
    | .arr elements =>
      if elements.length > 0 then .ok (ofNullable (elements.getD 0 .vundefined))
      else .ok empty
    | _ => .ok empty

/-- `last(source)` (lines 189-193): `source[source.length - 1]` on a non-empty source. -/
def last (source : JSVal) : Except String JSVal :=
  match requireArgument source "source" with
  | .error e => .error e
  | .ok _ =>
    match source with
    | .arr elements =>
      if elements.length > 0 then
        .ok (ofNullable (elements.getD (elements.length - 1) .vundefined))
      else .ok empty
    | _ => .ok empty

/-- Namespace-level `map(value, transformer)` (lines 195-199): validates the
transformer first, then `isPresent(value) ? ofNullable(transformer(value)) : empty()`.
The second component records the arguments the transformer was invoked on. -/
def map (value : JSVal) (transformer : Option (JSVal → JSVal)) :
    Except String JSVal × List JSVal :=
  match transformer with
  | none => (.error (absentArgMsg "transformer"), [])
  | some f =>
    if isPresent value then (.ok (ofNullable (f value)), [value])
    else (.ok empty, [])

/-- Namespace-level `flatMap(value, transformer)` (lines 201-213): validates the
transformer, short-circuits on an absent value, then invokes the transformer
once and passes its result through `require`, which returns it unchanged when
it is materialized and throws otherwise. -/
def flatMap (value : JSVal) (transformer : Option (JSVal → JSVal)) :
    Except String JSVal × List JSVal :=
  match transformer with
  | none => (.error (absentArgMsg "transformer"), [])
  | some f =>
    if isAbsent value then (.ok empty, [])
    else
      let transformed := f value
      match require transformed
          (some "Transformer returned absent value instead of IOptional") with
      | .error e => (.error e, [value])
      | .ok _ => (.ok transformed, [value])

end Optional

/-
Methods of the private class Optional (lines 215-360). The receiver is
represented by its sole private field, `identity : JSVal`; the instance
itself is `JSVal.optional identity`. Methods returning `this` return
`JSVal.optional identity` unchanged.
-/
namespace Optional.Inst

/-- Instance `isPresent()` (lines 306-308). -/
def isPresent (identity : JSVal) : Bool := Optional.isPresent identity

/-- Instance `isAbsent()` (lines 310-312). -/
def isAbsent (identity : JSVal) : Bool := Optional.isAbsent identity

/-- Instance `map(transformer)` (lines 218-220):
`isPresent(this.identity) ? map(this.identity, transformer) : empty()`.
Note that on the absent path the namespace-level map is never entered, so the
transformer argument is not validated there. -/
def map (identity : JSVal) (transformer : Option (JSVal → JSVal)) :
    Except String JSVal × List JSVal :=
  if Optional.isPresent identity then Optional.map identity transformer
  else (.ok Optional.empty, [])

/-- Instance `flatMap(transformer)` (lines 222-224): delegates unconditionally
to the namespace-level flatMap. -/
def flatMap (identity : JSVal) (transformer : Option (JSVal → JSVal)) :
    Except String JSVal × List JSVal :=
  Optional.flatMap identity transformer

/-- Instance `filter(predicate)` (lines 226-230): validates the predicate, then
`isAbsent(this.identity) || predicate(this.identity) ? this : empty()`. -/
def filter (identity : JSVal) (predicate : Option (JSVal → Bool)) :
    Except String JSVal × List JSVal :=
  match predicate with
  | none => (.error (Optional.absentArgMsg "predicate"), [])
  | some p =>
    if Optional.isAbsent identity then (.ok (.optional identity), [])
    else if p identity then (.ok (.optional identity), [identity])
    else (.ok Optional.empty, [identity])

/-- Instance `orElse(value)` (lines 256-262): identity when present, otherwise
`isPresent(value) ? value : null`. -/
def orElse (identity : JSVal) (value : JSVal) : JSVal :=
  if Optional.isPresent identity then identity
  else if Optional.isPresent value then value
  else .vnull

/-- Instance `orElseSupply(supplier)` (lines 264-274): validates the supplier
unconditionally, returns identity when present, otherwise invokes the supplier
once and normalizes an absent result to null. -/
def orElseSupply (identity : JSVal) (supplier : Option (Unit → JSVal)) :
    Except String JSVal :=
  match supplier with
  | none => .error (Optional.absentArgMsg "supplier")
  | some s =>
    if Optional.isPresent identity then .ok identity
    else
      let value := s ()
      .ok (if Optional.isPresent value then value else .vnull)

/-- Instance `orElseThrow(supplier)` (lines 276-284): validates the supplier,
returns identity when present, otherwise throws the supplied error. Errors are
modelled by their message. -/
def orElseThrow (identity : JSVal) (supplier : Option (Unit → String)) :
    Except String JSVal :=
  match supplier with
  | none => .error (Optional.absentArgMsg "supplier")
  | some s =>
    if Optional.isPresent identity then .ok identity
    else .error (s ())

/-- Instance `get()` (lines 252-254): `orElseThrow(() => new Error('Identity is not present'))`. -/
def get (identity : JSVal) : Except String JSVal :=
  orElseThrow identity (some fun _ => "Identity is not present")

/-- Instance `orElseNull()` (lines 286-288): `this.orElse(null)`. -/
def orElseNull (identity : JSVal) : JSVal :=
  orElse identity .vnull

/-- Instance `fallback(other)` (lines 290-294): validates `other`
unconditionally, then returns `this` when present and `other` otherwise. -/
def fallback (identity : JSVal) (other : JSVal) : Except String JSVal :=
  match Optional.requireArgument other "other" with
  | .error e => .error e
  | .ok _ =>
    if Optional.isPresent identity then .ok (.optional identity)
    else .ok other

/-- Instance `supplyFallback(supplier)` (lines 296-304): validates the supplier,
returns `this` when present, otherwise invokes the supplier once and passes its
result through `require`, which returns it unchanged when materialized. -/
def supplyFallback (identity : JSVal) (supplier : Option (Unit → JSVal)) :
    Except String JSVal :=
  match supplier with
  | none => .error (Optional.absentArgMsg "supplier")
  | some s =>
    if Optional.isPresent identity then .ok (.optional identity)
    else
      match Optional.require (s ())
          (some "Provided supplier returned empty value instead of optional") with
      | .error e => .error e
      | .ok v => .ok v

/-- Instance `ifPresent(consumer)` (lines 314-322): validates the consumer,
invokes it on the identity when present, returns `this`. The consumer has no
observable output, so it is modelled by `some ()` when callable; the second
component records the arguments it was invoked on. -/
def ifPresent (identity : JSVal) (consumer : Option Unit) :
    Except String JSVal × List JSVal :=
  match consumer with
  | none => (.error (Optional.absentArgMsg "consumer"), [])
  | some _ =>
    if Optional.isPresent identity then (.ok (.optional identity), [identity])
    else (.ok (.optional identity), [])

/-- Instance `ifAbsent(action)` (lines 324-332): validates the action, invokes
it when absent, returns `this`. The second component counts invocations. -/
def ifAbsent (identity : JSVal) (action : Option Unit) :
    Except String JSVal × Nat :=
  match action with
  | none => (.error (Optional.absentArgMsg "action"), 0)
  | some _ =>
    if Optional.isAbsent identity then (.ok (.optional identity), 1)
    else (.ok (.optional identity), 0)

end Optional.Inst

namespace Optional

/-- Messages of the throw sites the spec classes as InvalidArgument: absent
identity in `of`, and an absent required argument anywhere (`requireArgument`). -/
def invalidArgumentMsgs : List String :=
  ["Absent identity provided",
   absentArgMsg "transformer",
   absentArgMsg "predicate",
   absentArgMsg "supplier",
   absentArgMsg "consumer",
   absentArgMsg "action",
   absentArgMsg "other",
   absentArgMsg "source"]

/-- Messages of the throw sites the spec classes as InvalidState: contract
violations by collaborators and unwrapping an absent optional. -/
def invalidStateMsgs : List String :=
  ["Transformer returned absent value instead of IOptional",
   "Provided supplier returned empty value instead of optional",
   "Identity is not present",
   "Absent value provided"]

end Optional

/-- Test that a JavaScript value is an instance of the private Optional class. -/
def isOptionalInstance : JSVal → Bool
  | .optional _ => true
  | _ => false

/-- Pipeline `opt.map(f).map(g)`: the first map always succeeds and yields an
Optional instance, whose identity feeds the second map. The fallback arm keeps
the definition total. -/
def mapChain (identity : JSVal) (f g : JSVal → JSVal) : Except String JSVal :=
  match Optional.Inst.map identity (some f) with
  | (.ok (.optional i), _) => (Optional.Inst.map i (some g)).1
  | (r, _) => r

/-- Pipeline `opt.map(x => g(f(x)))`. -/
def composeMap (identity : JSVal) (f g : JSVal → JSVal) : Except String JSVal :=
  (Optional.Inst.map identity (some fun x => g (f x))).1

/-- Observable equality of operation results in the sense of the spec: equal
presence state and, when present, equal identities; other outcomes compare
structurally. -/
def obsEq : Except String JSVal → Except String JSVal → Prop
  | .ok (.optional a), .ok (.optional b) =>
      Optional.isPresent a = Optional.isPresent b ∧
      (Optional.isPresent a = true → a = b)
  | a, b => a = b

/-- Transformer returning the bare absent value null. -/
def constNullFn : JSVal → JSVal := fun _ => .vnull

/-- Transformer returning the materialized number 7 on every input. -/
def constSevenFn : JSVal → JSVal := fun _ => .num 7

/-- Transformer returning the materialized number 5 on every input. -/
def constFiveFn : JSVal → JSVal := fun _ => .num 5

/-- Identity transformer. -/
def idFn : JSVal → JSVal := fun x => x

/-- C1: for every materialized value v, including falsy-but-materialized ones,
of(v) wraps v, the optional is present and get() returns v; for every absent v
(null or undefined has isPresent false), of(v) fails with the
InvalidArgument-class error of the of factory. -/
theorem c1_of_materialized_and_absent (v : JSVal) :
    (Optional.isPresent v = true →
      Optional.of v = .ok (.optional v) ∧
      Optional.Inst.isPresent v = true ∧
      Optional.Inst.get v = .ok v) ∧
    (Optional.isPresent v = false →
      Optional.of v = .error "Absent identity provided" ∧
      "Absent identity provided" ∈ Optional.invalidArgumentMsgs) := by
  constructor
  · intro h
    refine ⟨?_, ?_, ?_⟩ <;>
      simp [Optional.of, Optional.require, Optional.Inst.isPresent,
        Optional.Inst.get, Optional.Inst.orElseThrow, h]
  · intro h
    refine ⟨?_, by simp [Optional.invalidArgumentMsgs]⟩
    simp [Optional.of, Optional.require, h]

theorem c1_witness :
    Optional.of (.num 0) = .ok (.optional (.num 0)) ∧
    Optional.Inst.get (.num 0) = .ok (.num 0) ∧
    Optional.of (.bool false) = .ok (.optional (.bool false)) ∧
    Optional.Inst.get (.bool false) = .ok (.bool false) ∧
    Optional.of (.str "") = .ok (.optional (.str "")) ∧
    Optional.Inst.get (.str "") = .ok (.str "") ∧
    Optional.of (.arr []) = .ok (.optional (.arr [])) ∧
    Optional.Inst.get (.arr []) = .ok (.arr []) ∧
    Optional.of .vnull = .error "Absent identity provided" ∧
    Optional.of .vundefined = .error "Absent identity provided" :=
  ⟨((c1_of_materialized_and_absent (.num 0)).1 rfl).1,
   ((c1_of_materialized_and_absent (.num 0)).1 rfl).2.2,
   ((c1_of_materialized_and_absent (.bool false)).1 rfl).1,
   ((c1_of_materialized_and_absent (.bool false)).1 rfl).2.2,
   ((c1_of_materialized_and_absent (.str "")).1 rfl).1,
   ((c1_of_materialized_and_absent (.str "")).1 rfl).2.2,
   ((c1_of_materialized_and_absent (.arr [])).1 rfl).1,
   ((c1_of_materialized_and_absent (.arr [])).1 rfl).2.2,
   ((c1_of_materialized_and_absent .vnull).2 rfl).1,
   ((c1_of_materialized_and_absent .vundefined).2 rfl).1⟩

/-- C2 counterexample: the claim says an absent fallback value is returned
verbatim, but empty().orElse(undefined) evaluates to null, which is not the
fallback value undefined. The receiver is empty(), whose identity field is
null. -/
theorem c2_counterexample :
    Optional.Inst.orElse .vnull .vundefined = .vnull ∧
    JSVal.vnull ≠ JSVal.vundefined :=
  ⟨rfl, fun h => JSVal.noConfusion h⟩

/-- C2 amended: on a present optional orElse returns the identity; on an
absent optional it returns a materialized fallback verbatim, but an absent
fallback is normalized to null (so for the fallback undefined the result is
null rather than the fallback itself). -/
theorem c2_orElse_amended (identity v : JSVal) :
    (Optional.isPresent identity = true →
      Optional.Inst.orElse identity v = identity) ∧
    (Optional.isAbsent identity = true →
      (Optional.isPresent v = true → Optional.Inst.orElse identity v = v) ∧
      (Optional.isAbsent v = true → Optional.Inst.orElse identity v = .vnull)) := by
  constructor
  · intro h
    simp [Optional.Inst.orElse, h]
  · intro h
    simp [Optional.isAbsent] at h
    constructor
    · intro hv
      simp [Optional.Inst.orElse, h, hv]
    · intro hv
      simp [Optional.isAbsent] at hv
      simp [Optional.Inst.orElse, h, hv]

theorem c2_witness :
    Optional.Inst.orElse (.num 5) .vundefined = .num 5 ∧
    Optional.Inst.orElse .vnull (.num 7) = .num 7 ∧
    Optional.Inst.orElse .vnull .vnull = .vnull :=
  ⟨(c2_orElse_amended (.num 5) .vundefined).1 rfl,
   ((c2_orElse_amended .vnull (.num 7)).2 rfl).1 rfl,
   ((c2_orElse_amended .vnull .vnull).2 rfl).2 rfl⟩

/-- C3: on a present optional, flatMap with a transformer returning a bare
absent value fails with the InvalidState-class error of the flatMap contract
check, after invoking the transformer exactly once on the identity; on an
absent optional, flatMap returns empty without invoking the transformer. -/
theorem c3_flatMap_bare_absent (identity : JSVal) (f : JSVal → JSVal) :
    (Optional.isPresent identity = true → Optional.isAbsent (f identity) = true →
      Optional.Inst.flatMap identity (some f) =
        (.error "Transformer returned absent value instead of IOptional", [identity]) ∧
      "Transformer returned absent value instead of IOptional"
        ∈ Optional.invalidStateMsgs) ∧
    (Optional.isAbsent identity = true →
      Optional.Inst.flatMap identity (some f) = (.ok Optional.empty, [])) := by
  constructor
  · intro h hf
    simp [Optional.isAbsent] at hf
    refine ⟨?_, by simp [Optional.invalidStateMsgs]⟩
    simp [Optional.Inst.flatMap, Optional.flatMap, Optional.require,
      Optional.isAbsent, h, hf]
  · intro h
    simp [Optional.isAbsent] at h
    simp [Optional.Inst.flatMap, Optional.flatMap, Optional.isAbsent, h]

theorem c3_witness :
    Optional.Inst.flatMap (.num 1) (some constNullFn) =
      (.error "Transformer returned absent value instead of IOptional", [.num 1]) ∧
    Optional.Inst.flatMap .vnull (some constNullFn) = (.ok Optional.empty, []) :=
  ⟨((c3_flatMap_bare_absent (.num 1) constNullFn).1 rfl rfl).1,
   (c3_flatMap_bare_absent .vnull constNullFn).2 rfl⟩

/-- C4: on an absent optional, instance map returns empty (whose identity null
is absent) without invoking the transformer; on a present optional it invokes
the transformer exactly once on the identity and returns ofNullable of the
result, so the outcome is a present optional exactly when the result is
materialized and an absent optional when the result is absent. -/
theorem c4_map_behaviour (identity : JSVal) (f : JSVal → JSVal) :
    (Optional.isAbsent identity = true →
      Optional.Inst.map identity (some f) = (.ok Optional.empty, []) ∧
      Optional.Inst.isAbsent .vnull = true) ∧
    (Optional.isPresent identity = true →
      Optional.Inst.map identity (some f) =
        (.ok (Optional.ofNullable (f identity)), [identity]) ∧
      (Optional.isPresent (f identity) = true →
        Optional.Inst.isPresent (f identity) = true) ∧
      (Optional.isAbsent (f identity) = true →
        Optional.Inst.isAbsent (f identity) = true)) := by
  constructor
  · intro h
    simp [Optional.isAbsent] at h
    exact ⟨by simp [Optional.Inst.map, h], rfl⟩
  · intro h
    refine ⟨by simp [Optional.Inst.map, Optional.map, h], ?_, ?_⟩
    · intro hf
      simpa [Optional.Inst.isPresent] using hf
    · intro hf
      simpa [Optional.Inst.isAbsent] using hf

theorem c4_witness :
    Optional.Inst.map .vundefined (some constSevenFn) = (.ok Optional.empty, []) ∧
    Optional.Inst.map (.num 1) (some constSevenFn) =
      (.ok (Optional.ofNullable (.num 7)), [.num 1]) ∧
    Optional.Inst.map (.num 1) (some constNullFn) =
      (.ok (Optional.ofNullable .vnull), [.num 1]) ∧
    Optional.Inst.isAbsent .vnull = true :=
  ⟨((c4_map_behaviour .vundefined constSevenFn).1 rfl).1,
   ((c4_map_behaviour (.num 1) constSevenFn).2 rfl).1,
   ((c4_map_behaviour (.num 1) constNullFn).2 rfl).1,
   ((c4_map_behaviour .vundefined constSevenFn).1 rfl).2⟩

/-- C5: orElseSupply with an absent supplier and fallback with an absent other
argument fail with InvalidArgument-class errors on every receiver, present or
absent, even though the present path would never consult the argument. -/
theorem c5_unconditional_validation (identity other : JSVal) :
    Optional.Inst.orElseSupply identity none =
      .error (Optional.absentArgMsg "supplier") ∧
    Optional.absentArgMsg "supplier" ∈ Optional.invalidArgumentMsgs ∧
    (Optional.isAbsent other = true →
      Optional.Inst.fallback identity other =
        .error (Optional.absentArgMsg "other")) ∧
    Optional.absentArgMsg "other" ∈ Optional.invalidArgumentMsgs := by
  refine ⟨rfl, by simp [Optional.invalidArgumentMsgs], ?_,
    by simp [Optional.invalidArgumentMsgs]⟩
  intro h
  simp [Optional.isAbsent] at h
  simp [Optional.Inst.fallback, Optional.requireArgument, h]

theorem c5_witness :
    Optional.Inst.orElseSupply (.num 5) none =
      .error (Optional.absentArgMsg "supplier") ∧
    Optional.Inst.orElseSupply .vnull none =
      .error (Optional.absentArgMsg "supplier") ∧
    Optional.Inst.fallback (.num 5) .vundefined =
      .error (Optional.absentArgMsg "other") ∧
    Optional.Inst.fallback .vnull .vnull =
      .error (Optional.absentArgMsg "other") :=
  ⟨(c5_unconditional_validation (.num 5) .vundefined).1,
   (c5_unconditional_validation .vnull .vnull).1,
   (c5_unconditional_validation (.num 5) .vundefined).2.2.1 rfl,
   (c5_unconditional_validation .vnull .vnull).2.2.1 rfl⟩

/-- C6: first and last fail with the InvalidArgument-class error of
requireArgument when the sequence reference is absent; on a zero-element array
they return empty; on a non-empty array they return ofNullable of the first
(respectively last) element, so a present-but-null element yields an absent
optional; and first([1,2,3]) holds 1 while last([1,2,3]) holds 3. -/
theorem c6_first_last (x : JSVal) (xs : List JSVal) :
    Optional.first .vnull = .error (Optional.absentArgMsg "source") ∧
    Optional.first .vundefined = .error (Optional.absentArgMsg "source") ∧
    Optional.last .vnull = .error (Optional.absentArgMsg "source") ∧
    Optional.last .vundefined = .error (Optional.absentArgMsg "source") ∧
    Optional.absentArgMsg "source" ∈ Optional.invalidArgumentMsgs ∧
    Optional.first (.arr []) = .ok Optional.empty ∧
    Optional.last (.arr []) = .ok Optional.empty ∧
    Optional.first (.arr (x :: xs)) = .ok (Optional.ofNullable x) ∧
    Optional.last (.arr (xs ++ [x])) = .ok (Optional.ofNullable x) ∧
    Optional.first (.arr [.num 1, .num 2, .num 3]) = .ok (.optional (.num 1)) ∧
    Optional.Inst.get (.num 1) = .ok (.num 1) ∧
    Optional.last (.arr [.num 1, .num 2, .num 3]) = .ok (.optional (.num 3)) ∧
    Optional.Inst.get (.num 3) = .ok (.num 3) ∧
    Optional.first (.arr [.vnull]) = .ok (.optional .vnull) ∧
    Optional.Inst.isAbsent .vnull = true := by
  refine ⟨rfl, rfl, rfl, rfl, by simp [Optional.invalidArgumentMsgs],
    rfl, rfl, ?_, ?_, rfl, rfl, rfl, rfl, rfl, rfl⟩
  · simp [Optional.first, Optional.requireArgument, Optional.isPresent,
      Optional.ofNullable]
  · simp [Optional.last, Optional.requireArgument, Optional.isPresent,
      Optional.ofNullable]

/-- C7 counterexample: with the pure transformers constNullFn and constSevenFn,
of(1).map(f).map(g) is absent while of(1).map(x => g(f(x))) is present holding
7, so the two pipelines do not yield equal results as the claim states. -/
theorem c7_counterexample :
    mapChain (.num 1) constNullFn constSevenFn = .ok (.optional .vnull) ∧
    composeMap (.num 1) constNullFn constSevenFn = .ok (.optional (.num 7)) ∧
    ¬ obsEq (mapChain (.num 1) constNullFn constSevenFn)
        (composeMap (.num 1) constNullFn constSevenFn) := by
  refine ⟨rfl, rfl, ?_⟩
  intro h
  exact absurd h.1 (by decide)

/-- C7 amended: opt.map(f).map(g) and opt.map(x => g(f(x))) yield equal
results (same presence and, when present, equal identity) for pure f and g,
provided that whenever f yields an absent result, g maps that result to an
absent value as well; without that proviso the chained pipeline can be absent
while the composed one is present. -/
theorem instMap_present_eq (identity : JSVal) (f : JSVal → JSVal)
    (h : Optional.isPresent identity = true) :
    Optional.Inst.map identity (some f) =
      (.ok (.optional (f identity)), [identity]) := by
  simp [Optional.Inst.map, Optional.map, h, Optional.ofNullable]

theorem instMap_absent_eq (identity : JSVal) (t : Option (JSVal → JSVal))
    (h : Optional.isPresent identity = false) :
    Optional.Inst.map identity t = (.ok (.optional .vnull), []) := by
  simp [Optional.Inst.map, h, Optional.empty]

theorem c7_map_fusion_amended (identity : JSVal) (f g : JSVal → JSVal)
    (hg : ∀ x, Optional.isAbsent (f x) = true →
      Optional.isAbsent (g (f x)) = true) :
    obsEq (mapChain identity f g) (composeMap identity f g) := by
  by_cases hid : Optional.isPresent identity = true
  case pos =>
    by_cases hf : Optional.isPresent (f identity) = true
    case pos =>
      simp only [mapChain, composeMap, instMap_present_eq identity f hid,
        instMap_present_eq (f identity) g hf,
        instMap_present_eq identity (fun x => g (f x)) hid]
      exact ⟨rfl, fun _ => rfl⟩
    case neg =>
      have hf' : Optional.isPresent (f identity) = false := by simpa using hf
      have hgf : Optional.isPresent (g (f identity)) = false := by
        have := hg identity (by simp [Optional.isAbsent, hf'])
        simpa [Optional.isAbsent] using this
      simp only [mapChain, composeMap, instMap_present_eq identity f hid,
        instMap_absent_eq (f identity) (some g) hf',
        instMap_present_eq identity (fun x => g (f x)) hid]
      exact ⟨by rw [hgf]; rfl, fun hh => absurd hh (by decide)⟩
  case neg =>
    have hid' : Optional.isPresent identity = false := by simpa using hid
    simp only [mapChain, composeMap, instMap_absent_eq identity (some f) hid',
      instMap_absent_eq .vnull (some g) rfl,
      instMap_absent_eq identity (some fun x => g (f x)) hid']
    exact ⟨rfl, fun _ => rfl⟩

theorem c7_witness :
    obsEq (mapChain (.num 1) idFn idFn) (composeMap (.num 1) idFn idFn) :=
  c7_map_fusion_amended (.num 1) idFn idFn (fun _ h => h)

/-- C8: on an absent optional with an absent fallback value, orElse returns
exactly null, never undefined; orElseSupply likewise normalizes an absent
supplied value to null; orElseNull coincides with orElse(null) on every
receiver; and an optional built by ofNullable from undefined unwraps to null. -/
theorem c8_absent_normalization (identity v s : JSVal) :
    (Optional.isAbsent identity = true → Optional.isAbsent v = true →
      Optional.Inst.orElse identity v = .vnull) ∧
    (Optional.isAbsent identity = true → Optional.isAbsent s = true →
      Optional.Inst.orElseSupply identity (some fun _ => s) = .ok .vnull) ∧
    Optional.Inst.orElseNull identity = Optional.Inst.orElse identity .vnull ∧
    Optional.ofNullable .vundefined = .optional .vundefined ∧
    Optional.Inst.orElseNull .vundefined = .vnull := by
  refine ⟨?_, ?_, rfl, rfl, rfl⟩
  · intro h hv
    simp [Optional.isAbsent] at h hv
    simp [Optional.Inst.orElse, h, hv]
  · intro h hs
    simp [Optional.isAbsent] at h hs
    simp [Optional.Inst.orElseSupply, h, hs]

theorem c8_witness :
    Optional.Inst.orElse .vundefined .vundefined = .vnull ∧
    Optional.Inst.orElseSupply .vundefined (some fun _ => JSVal.vundefined) =
      .ok .vnull ∧
    Optional.Inst.orElseNull .vundefined = .vnull :=
  ⟨(c8_absent_normalization .vundefined .vundefined .vundefined).1 rfl rfl,
   (c8_absent_normalization .vundefined .vundefined .vundefined).2.1 rfl rfl,
   (c8_absent_normalization .vundefined .vundefined .vundefined).2.2.2.2⟩

/-- C9: the require check in flatMap and supplyFallback rejects only absent
returns; a transformer (on a present receiver) or supplier (on an absent
receiver) returning a materialized value that is not an Optional instance
raises no error, and that value is returned unchanged as the result. -/
theorem c9_require_detects_only_absent (identity v : JSVal) (f : JSVal → JSVal) :
    (Optional.isPresent identity = true →
      Optional.isPresent (f identity) = true →
      isOptionalInstance (f identity) = false →
      Optional.Inst.flatMap identity (some f) = (.ok (f identity), [identity])) ∧
    (Optional.isAbsent identity = true →
      Optional.isPresent v = true →
      isOptionalInstance v = false →
      Optional.Inst.supplyFallback identity (some fun _ => v) = .ok v) := by
  constructor
  · intro h hf _
    simp [Optional.Inst.flatMap, Optional.flatMap, Optional.require,
      Optional.isAbsent, h, hf]
  · intro h hv _
    simp [Optional.isAbsent] at h
    simp [Optional.Inst.supplyFallback, Optional.require, h, hv]

theorem c9_witness :
    Optional.Inst.flatMap (.num 1) (some constFiveFn) =
      (.ok (.num 5), [.num 1]) ∧
    Optional.Inst.supplyFallback .vnull (some fun _ => JSVal.num 5) =
      .ok (.num 5) :=
  ⟨(c9_require_detects_only_absent (.num 1) (.num 5) constFiveFn).1 rfl rfl rfl,
   (c9_require_detects_only_absent .vnull (.num 5) constFiveFn).2 rfl rfl rfl⟩

/-- C10: filter, ifPresent, ifAbsent and flatMap raise InvalidArgument-class
errors on an absent callback argument for every receiver, present or absent;
instance map is the exception: on an absent receiver with an absent
transformer it returns empty without any error. -/
theorem c10_eager_callback_validation (identity : JSVal) :
    Optional.Inst.filter identity none =
      (.error (Optional.absentArgMsg "predicate"), []) ∧
    Optional.Inst.ifPresent identity none =
      (.error (Optional.absentArgMsg "consumer"), []) ∧
    Optional.Inst.ifAbsent identity none =
      (.error (Optional.absentArgMsg "action"), 0) ∧
    Optional.Inst.flatMap identity none =
      (.error (Optional.absentArgMsg "transformer"), []) ∧
    Optional.absentArgMsg "predicate" ∈ Optional.invalidArgumentMsgs ∧
    Optional.absentArgMsg "consumer" ∈ Optional.invalidArgumentMsgs ∧
    Optional.absentArgMsg "action" ∈ Optional.invalidArgumentMsgs ∧
    Optional.absentArgMsg "transformer" ∈ Optional.invalidArgumentMsgs ∧
    (Optional.isAbsent identity = true →
      Optional.Inst.map identity none = (.ok Optional.empty, [])) := by
  refine ⟨rfl, rfl, rfl, rfl, by simp [Optional.invalidArgumentMsgs],
    by simp [Optional.invalidArgumentMsgs], by simp [Optional.invalidArgumentMsgs],
    by simp [Optional.invalidArgumentMsgs], ?_⟩
  intro h
  simp [Optional.isAbsent] at h
  simp [Optional.Inst.map, h]

theorem c10_witness :
    Optional.Inst.filter (.num 1) none =
      (.error (Optional.absentArgMsg "predicate"), []) ∧
    Optional.Inst.ifPresent (.num 1) none =
      (.error (Optional.absentArgMsg "consumer"), []) ∧
    Optional.Inst.ifAbsent (.num 1) none =
      (.error (Optional.absentArgMsg "action"), 0) ∧
    Optional.Inst.flatMap (.num 1) none =
      (.error (Optional.absentArgMsg "transformer"), []) ∧
    Optional.Inst.map .vnull none = (.ok Optional.empty, []) :=
  ⟨(c10_eager_callback_validation (.num 1)).1,
   (c10_eager_callback_validation (.num 1)).2.1,
   (c10_eager_callback_validation (.num 1)).2.2.1,
   (c10_eager_callback_validation (.num 1)).2.2.2.1,
   (c10_eager_callback_validation .vnull).2.2.2.2.2.2.2.2 rfl⟩
